import Mathlib

/-
Verification development for the NY Fed longer-run federal-funds-rate
extraction pipeline.

Each Python function relevant to the checked claims is shallowly embedded
as an executable Lean definition.  Machine floats in the source are
modelled as rationals, Python `None` as `Option.none`, Python `datetime`
values as `PyDate` triples, and pandas data frames as lists of records.
The definition names follow the Python function names.
-/

namespace NyFed

/-- A calendar date as used by Python `datetime` values in the pipeline
(only comparisons and formatting to a year-month key are needed). -/
structure PyDate where
  year : Nat
  month : Nat
  day : Nat
deriving DecidableEq, Repr

/-- Lexicographic `<` on dates, the comparison `datetime` performs. -/
def dateLt (a b : PyDate) : Bool :=
  decide (a.year < b.year ∨ (a.year = b.year ∧
    (a.month < b.month ∨ (a.month = b.month ∧ a.day < b.day))))

/-- Non-strict date comparison, used when sorting rows by survey date. -/
def dateLe (a b : PyDate) : Bool :=
  dateLt a b || decide (a = b)

/-- `src/src/utils.py`, `ExtractedPercentile`: the canonical output record.
Percentile values are `Option ℚ` (Python `float|None`). -/
structure ExtractedPercentile where
  survey_date : PyDate
  panel : String
  concept : String
  pctl25 : Option ℚ
  pctl50 : Option ℚ
  pctl75 : Option ℚ
  source : String
  file_url : String
  local_path : String
  pdf_page : Option Nat
  notes : Option String
deriving DecidableEq, Repr

/-- Round a rational to the nearest integer, ties to even — the rounding
used by Python `round`. -/
def roundHalfEven (q : ℚ) : ℤ :=
  let f : ℤ := ⌊q⌋
  let r : ℚ := q - f
  if r < 1 / 2 then f
  else if 1 / 2 < r then f + 1
  else if f % 2 = 0 then f else f + 1

/-- Python `round(x, 4)`: round to four decimal places. -/
def pyRound4 (q : ℚ) : ℚ :=
  (roundHalfEven (q * 10000) : ℚ) / 10000

/-- `src/src/utils.py`, `normalize_percent`, restricted to the `None` and
numeric inputs that the modelled call sites pass: `None` maps to `None`;
a numeric value of magnitude below 0.5 is rescaled by 100 before the
4-decimal rounding, any other numeric value is only rounded. -/
def normalize_percent : Option ℚ → Option ℚ
  | none => none
  | some v => if |v| < 1 / 2 then some (pyRound4 (v * 100)) else some (pyRound4 v)

/-- Does the pattern occur at the head of the character list? -/
def leadingMatch : List Char → List Char → Bool
  | [], _ => true
  | _ :: _, [] => false
  | p :: ps, c :: cs => p == c && leadingMatch ps cs

/-- Does the pattern occur anywhere in the character list?  Models the
Python substring test `pat in s`. -/
def containsSub : List Char → List Char → Bool
  | [], pat => leadingMatch pat []
  | c :: cs, pat => leadingMatch pat (c :: cs) || containsSub cs pat

/-- Python `pat in s` on strings. -/
def strContains (s pat : String) : Bool :=
  containsSub s.toList pat.toList

/-- Python `s.startswith(pat)`. -/
def strStarts (s pat : String) : Bool :=
  leadingMatch pat.toList s.toList

/-- Python `s.lower()` (character-wise lowercasing). -/
def toLowerStr (s : String) : String :=
  ⟨s.data.map Char.toLower⟩

/-- Lexicographic `<` on character lists: Python string comparison. -/
def strLtChars : List Char → List Char → Bool
  | [], [] => false
  | [], _ :: _ => true
  | _ :: _, [] => false
  | a :: as, b :: bs =>
    if a < b then true else if b < a then false else strLtChars as bs

/-- Python `a < b` on strings. -/
def strLtB (a b : String) : Bool :=
  strLtChars a.toList b.toList

/-- Python `a <= b` on strings. -/
def strLeB (a b : String) : Bool :=
  a == b || strLtB a b

/-- `src/scripts/03_extract_pdf_llm.py`, `determine_panel`: classify a
panel from the (lower-cased) filename, falling back to date-era rules. -/
def determine_panel (filename : String) (survey_date : Option PyDate) : String :=
  let fn := toLowerStr filename
  if strContains fn "spd" || strContains fn "dealer" then "SPD"
  else if strContains fn "smp" || strContains fn "participant" || strStarts fn "mp-" ||
      strContains fn "-mp_" || strStarts fn "mp_" || strContains fn "-mp.pdf" ||
      strContains fn "-results-mp" then "SMP"
  else if (match survey_date with
           | some d => dateLt d ⟨2014, 1, 1⟩
           | none => false) then "SPD"
  else if (match survey_date with
           | some d => dateLt d ⟨2016, 11, 1⟩
           | none => false) then "SPD"
  else "Combined"

/-- `src/scripts/04_combine_and_plot.py`, lines 62-68: the source-priority
map (`fillna(9)` for unmapped source tags). -/
def sourcePriority (s : String) : Nat :=
  if s = "xlsx" then 0
  else if s = "pdf_llm" then 1
  else if s = "pdf_text" then 2
  else if s = "pdf_ocr" then 3
  else if s = "pdf_openai" then 1
  else 9

/-- Sort key used by `df.sort_values(["survey_date", "panel", "source_priority"])`:
lexicographic on date, then panel string, then priority. -/
def reconLe (a b : ExtractedPercentile) : Bool :=
  dateLt a.survey_date b.survey_date ||
    (decide (a.survey_date = b.survey_date) &&
      (strLtB a.panel b.panel ||
        (decide (a.panel = b.panel) &&
          decide (sourcePriority a.source ≤ sourcePriority b.source))))

/-- `df.drop_duplicates(subset=["survey_date", "panel"], keep="first")`:
keep the first row for each (survey_date, panel) key, dropping the rest. -/
def dedupByKeyAux (seen : List (PyDate × String)) :
    List ExtractedPercentile → List ExtractedPercentile
  | [] => []
  | r :: rs =>
    if (r.survey_date, r.panel) ∈ seen then dedupByKeyAux seen rs
    else r :: dedupByKeyAux ((r.survey_date, r.panel) :: seen) rs

/-- `src/scripts/04_combine_and_plot.py`, lines 58-76: the record
reconciliation of `main` — sort the concatenated rows by
(survey_date, panel, source_priority), keep the first row of every
(survey_date, panel) group, then sort by survey date. -/
def reconcile (rs : List ExtractedPercentile) : List ExtractedPercentile :=
  let sorted := rs.insertionSort (fun a b => reconLe a b = true)
  let deduped := dedupByKeyAux [] sorted
  deduped.insertionSort (fun a b => dateLe a.survey_date b.survey_date = true)

/-- `src/src/extract_xlsx.py`, `_create_empty_result`: all-null record
recording an extraction failure. -/
def createEmptyResult (filepath file_url : String) (survey_date : PyDate)
    (notes : String) : ExtractedPercentile :=
  { survey_date := survey_date
    panel := "Combined"
    concept := "ff_longer_run_target"
    pctl25 := none
    pctl50 := none
    pctl75 := none
    source := "xlsx"
    file_url := file_url
    local_path := filepath
    pdf_page := none
    notes := some notes }

/-- `src/src/extract_xlsx.py`, `extract_from_xlsx`, lines 319-323: when
the survey-type hint is SPD or SMP, records whose panel classified as
`Combined` are relabelled with the hint. -/
def xlsxOverride (survey_type : String) (rs : List ExtractedPercentile) :
    List ExtractedPercentile :=
  if survey_type = "SPD" ∨ survey_type = "SMP" then
    rs.map (fun r =>
      if r.panel = "Combined" then { r with panel := survey_type } else r)
  else rs

/-- `src/src/extract_xlsx.py`, `extract_from_xlsx`, lines 319-339: the
post-processing applied to the list `all_results` accumulated from the
per-sheet parses — override `Combined` panels when the survey-type hint
is SPD or SMP, deduplicate on (survey_date, panel) keeping the first
occurrence, and fall back to a single all-null record when nothing was
extracted. -/
def extract_from_xlsx (all_results : List ExtractedPercentile)
    (survey_type filepath file_url : String) (survey_date : PyDate) :
    List ExtractedPercentile :=
  let unique := dedupByKeyAux [] (xlsxOverride survey_type all_results)
  if unique = [] then
    [createEmptyResult filepath file_url survey_date "question_not_present"]
  else unique

/-- The JSON object returned by `call_llm_with_pdf` in
`src/scripts/03_extract_pdf_llm.py`, after parsing: optional survey
month/year, the `found` flag, three nullable percentile values, an
optional page number, and the optional `reason` / `error` strings. -/
structure LlmResult where
  survey_month : Option String
  survey_year : Option Int
  found : Bool
  pctl25 : Option ℚ
  pctl50 : Option ℚ
  pctl75 : Option ℚ
  page : Option Nat
  reason : Option String
  error : Option String
deriving DecidableEq, Repr

/-- The `MONTHS` dictionary of `parse_survey_date`
(`src/scripts/03_extract_pdf_llm.py`, lines 175-180), in insertion order. -/
def MONTHS : List (String × Nat) :=
  [("january", 1), ("february", 2), ("march", 3), ("april", 4), ("may", 5),
   ("june", 6), ("july", 7), ("august", 8), ("september", 9), ("october", 10),
   ("november", 11), ("december", 12),
   ("jan", 1), ("feb", 2), ("mar", 3), ("apr", 4), ("jun", 6), ("jul", 7),
   ("aug", 8), ("sep", 9), ("sept", 9), ("oct", 10), ("nov", 11), ("dec", 12)]

/-- First occurrence of the regex `20\d{2}` in a string: scan left to
right for the four-character pattern `2`, `0`, digit, digit. -/
def findYear20Aux : List Char → Option Nat
  | c1 :: c2 :: c3 :: c4 :: rest =>
    if c1 == '2' && c2 == '0' && c3.isDigit && c4.isDigit then
      some (2000 + 10 * (c3.toNat - 48) + (c4.toNat - 48))
    else findYear20Aux (c2 :: c3 :: c4 :: rest)
  | _ => none

/-- `re.search(r"20\d{2}", s)` as used by `parse_survey_date`. -/
def findYear20 (s : String) : Option Nat :=
  findYear20Aux s.toList

/-- `src/scripts/03_extract_pdf_llm.py`, `parse_survey_date`: prefer the
month/year reported by the service (2010-2030 window), else the first
month name occurring in the lower-cased filename paired with the first
`20\d{2}` year in the filename, else January of that year, else the
current time (`datetime.now()`), passed in as `now`. -/
def parse_survey_date (result : LlmResult) (filename : String) (now : PyDate) :
    PyDate :=
  let month_str := toLowerStr (result.survey_month.getD "")
  let primary : Option PyDate :=
    if month_str ≠ "" then
      match result.survey_year with
      | some y =>
        match MONTHS.lookup month_str with
        | some m =>
          if 2010 ≤ y ∧ y ≤ 2030 then some ⟨y.toNat, m, 1⟩ else none
        | none => none
      | none => none
    else none
  match primary with
  | some d => d
  | none =>
    let fn := toLowerStr filename
    match (MONTHS.find? (fun p => strContains fn p.1)).map (fun p => p.2),
        findYear20 filename with
    | some m, some y => ⟨y, m, 1⟩
    | _, _ =>
      match findYear20 filename with
      | some y => ⟨y, 1, 1⟩
      | none => now

/-- Zero-padded two-digit rendering of a month number. -/
def pad2 (n : Nat) : String :=
  if n < 10 then "0" ++ toString n else toString n

/-- Zero-padded four-digit rendering of a year number. -/
def pad4 (n : Nat) : String :=
  if n < 10 then "000" ++ toString n
  else if n < 100 then "00" ++ toString n
  else if n < 1000 then "0" ++ toString n
  else toString n

/-- `survey_date.strftime("%Y-%m")`: the year-month key compared against
the spreadsheet-extract date set. -/
def dateKey (d : PyDate) : String :=
  pad4 d.year ++ "-" ++ pad2 d.month

/-- Python `a or b` on optional strings: the empty string is falsy. -/
def pyOrStr : Option String → Option String → Option String
  | some s, b => if s = "" then b else some s
  | none, b => b

/-- The sanity check of `process_pdf` (`src/scripts/03_extract_pdf_llm.py`,
lines 233-239), applied to each percentile slot independently: a value
outside 0-10 percent is replaced by `None`. -/
def sanitizeRate : Option ℚ → Option ℚ
  | none => none
  | some v => if v < 0 ∨ v > 10 then none else some v

/-- `src/scripts/03_extract_pdf_llm.py`, `process_pdf`, with the
inference-service response supplied as `result`.  The second component
counts calls to the external inference service: `call_llm_with_pdf` runs
unconditionally at the top of `process_pdf`, before the spreadsheet-month
skip check, so every invocation performs exactly one call. -/
def process_pdf_traced (filename : String) (result : LlmResult)
    (xlsx_dates : List String) (now : PyDate) :
    Option ExtractedPercentile × Nat :=
  let calls := 1
  let survey_date := parse_survey_date result filename now
  let panel := determine_panel filename (some survey_date)
  let date_key := dateKey survey_date
  if date_key ∈ xlsx_dates then (none, calls)
  else
    let pctl25 := sanitizeRate result.pctl25
    let pctl50 := sanitizeRate result.pctl50
    let pctl75 := sanitizeRate result.pctl75
    let notes := if result.found then none else pyOrStr result.reason result.error
    (some { survey_date := survey_date
            panel := panel
            concept := "ff_longer_run_target"
            pctl25 := pctl25
            pctl50 := pctl50
            pctl75 := pctl75
            source := "pdf_llm"
            file_url := filename
            local_path := filename
            pdf_page := result.page
            notes := notes }, calls)

/-- The record returned by `process_pdf` (dropping the call count). -/
def process_pdf (filename : String) (result : LlmResult)
    (xlsx_dates : List String) (now : PyDate) : Option ExtractedPercentile :=
  (process_pdf_traced filename result xlsx_dates now).1

/-- The JSON object returned by the GPT call inside
`extract_percentiles_with_openai` (`src/src/extract_pdf_openai.py`),
after `json.loads`: `found` as obtained by `data.get("found", True)` is
optional, percentile values are nullable numbers. -/
structure OpenAiData where
  found : Option Bool
  pctl25 : Option ℚ
  pctl50 : Option ℚ
  pctl75 : Option ℚ
  page : Option Nat
  notes : Option String
deriving DecidableEq, Repr

/-- Python truthiness of `data.get(key)` for a nullable number: `None`
and `0.0` are falsy. -/
def pyTruthy : Option ℚ → Bool
  | none => false
  | some q => decide (q ≠ 0)

/-- `src/src/extract_pdf_openai.py`, `extract_percentiles_with_openai`,
lines 178-203: the record built from a successfully parsed service
response.  Each percentile slot is guarded by Python truthiness of the
raw value (`normalize_percent(data.get("pctl25")) if data.get("pctl25")
else None`), so a returned `0.0` is discarded. -/
def extract_percentiles_with_openai (survey_date : PyDate)
    (survey_type : String) (data : OpenAiData) (file_url filepath : String) :
    List ExtractedPercentile :=
  let panel := if survey_type = "SPD" then "SPD"
    else if survey_type = "SMP" then "SMP" else "Combined"
  let pctl25 := if pyTruthy data.pctl25 then normalize_percent data.pctl25 else none
  let pctl50 := if pyTruthy data.pctl50 then normalize_percent data.pctl50 else none
  let pctl75 := if pyTruthy data.pctl75 then normalize_percent data.pctl75 else none
  let notes := if data.found.getD true then none else data.notes
  [{ survey_date := survey_date
     panel := panel
     concept := "ff_longer_run_target"
     pctl25 := pctl25
     pctl50 := pctl50
     pctl75 := pctl75
     source := "pdf_openai"
     file_url := file_url
     local_path := filepath
     pdf_page := data.page
     notes := notes }]

/-- One row of the wide summary produced by `summarize_dots`
(`src/scripts/sep_02_extract_dotplot.py`): the percentile fields are
plain floats (`np.quantile` output), there is no null representation. -/
structure SepSummaryRow where
  horizon : String
  n : Nat
  p25 : ℚ
  p50 : ℚ
  p75 : ℚ
deriving DecidableEq, Repr

/-- `np.quantile(xs, p)` with the default linear interpolation on an
already sorted nonempty sample; the empty case returns a junk 0 (numpy
would raise there — the pipeline guards it out before the call). -/
def npQuantileSorted (s : List ℚ) (p : ℚ) : ℚ :=
  match s with
  | [] => 0
  | _ :: _ =>
    let n := s.length
    let h : ℚ := p * ((n : ℚ) - 1)
    let i : Nat := (⌊h⌋ : ℤ).toNat
    let lo := s.getD i 0
    let hi := s.getD (min (i + 1) (n - 1)) 0
    lo + (h - (i : ℚ)) * (hi - lo)

/-- `np.quantile(xs, p)` on an arbitrary sample: sort, then interpolate. -/
def npQuantile (xs : List ℚ) (p : ℚ) : ℚ :=
  npQuantileSorted (xs.insertionSort (fun a b => a ≤ b)) p

/-- `src/scripts/sep_02_extract_dotplot.py`, `clean_dotplot_counts`, on
the already-melted long rows (horizon, rate, count): drop zero-count
rows and sort by (horizon, rate) ascending. -/
def clean_dotplot_counts (rows : List (String × ℚ × Nat)) :
    List (String × ℚ × Nat) :=
  (rows.filter (fun t => decide (0 < t.2.2))).insertionSort
    (fun a b => (strLtB a.1 b.1 || (a.1 == b.1 && decide (a.2.1 ≤ b.2.1))) = true)

/-- `src/scripts/sep_02_extract_dotplot.py`, `expand_to_dots`: replicate
each (horizon, rate) pair `count` times. -/
def expand_to_dots (counts : List (String × ℚ × Nat)) : List (String × ℚ) :=
  counts.flatMap (fun t => List.replicate t.2.2 (t.1, t.2.1))

/-- `src/scripts/sep_02_extract_dotplot.py`, `summarize_dots`: group the
dots by horizon (pandas `groupby` sorts the keys) and compute the count
and the 25/50/75 linear-interpolation quantiles per group. -/
def summarize_dots (dots : List (String × ℚ)) : List SepSummaryRow :=
  let horizons := ((dots.map (fun t => t.1)).dedup).insertionSort
    (fun a b => strLeB a b = true)
  horizons.map (fun h =>
    let vals := (dots.filter (fun t => t.1 == h)).map (fun t => t.2)
    { horizon := h
      n := vals.length
      p25 := npQuantile vals (1 / 4)
      p50 := npQuantile vals (1 / 2)
      p75 := npQuantile vals (3 / 4) })

/-- `src/scripts/sep_02_extract_dotplot.py`, `build_sep_dotplot_panel`,
body of the per-meeting loop (lines 158-173): clean the raw count rows,
expand to dots, and skip the meeting entirely (`if dots.empty: continue`)
when no dots remain, otherwise summarize. -/
def build_sep_meeting (raw : List (String × ℚ × Nat)) : List SepSummaryRow :=
  let counts := clean_dotplot_counts raw
  let dots := expand_to_dots counts
  if dots = [] then [] else summarize_dots dots

/-- The three percentile slots produced by `parse_percentiles_from_text`
or `parse_percentiles_from_table` in `src/src/extract_pdf.py`. -/
structure Parsed where
  p25 : Option ℚ
  p50 : Option ℚ
  p75 : Option ℚ
deriving DecidableEq, Repr

/-- The accumulator of `extract_from_pdf`: the `pctls` dict plus the
`pdf_page` provenance variable. -/
structure FillState where
  pctls : Parsed
  page : Option Nat
deriving DecidableEq, Repr

/-- `all(v is not None for v in pctls.values())`. -/
def Parsed.full (s : Parsed) : Bool :=
  s.p25.isSome && s.p50.isSome && s.p75.isSome

/-- One slot of the update loop `if value is not None and pctls[key] is
None: pctls[key] = value`. -/
def fillSlot : Option ℚ → Option ℚ → Option ℚ
  | none, v => v
  | some c, _ => some c

/-- Did the update loop write this slot (and hence set `pdf_page`)? -/
def slotUpdated (cur v : Option ℚ) : Bool :=
  cur.isNone && v.isSome

/-- The per-stage update loop of `extract_from_pdf`: merge newly parsed
values into the unfilled slots, recording the page number whenever some
slot is written. -/
def applyParsed (st : FillState) (pg : Nat) (q : Parsed) : FillState :=
  { pctls := { p25 := fillSlot st.pctls.p25 q.p25
               p50 := fillSlot st.pctls.p50 q.p50
               p75 := fillSlot st.pctls.p75 q.p75 }
    page := if slotUpdated st.pctls.p25 q.p25 || slotUpdated st.pctls.p50 q.p50 ||
        slotUpdated st.pctls.p75 q.p75 then some pg else st.page }

/-- Step 3 of `extract_from_pdf`: fold the parsed candidate sections,
breaking out as soon as all three slots are filled. -/
def fillSections (st : FillState) : List (Nat × Parsed) → FillState
  | [] => st
  | (pg, q) :: rest =>
    let st2 := applyParsed st pg q
    if st2.pctls.full then st2 else fillSections st2 rest

/-- Step 4 of `extract_from_pdf`: fold the extracted tables, using only
tables whose flattened text matches the concept (the Bool flag), breaking
out as soon as all three slots are filled. -/
def fillTables (st : FillState) : List (Nat × Bool × Parsed) → FillState
  | [] => st
  | (pg, m, q) :: rest =>
    if m then
      let st2 := applyParsed st pg q
      if st2.pctls.full then st2 else fillTables st2 rest
    else fillTables st rest

/-- The OCR page loop of step 5 of `extract_from_pdf`: `ocrData` maps a
page number to (concept-match flag of the OCR text, parsed values). -/
def fillOcr (ocrData : Nat → Bool × Parsed) (st : FillState) :
    List Nat → FillState
  | [] => st
  | pg :: rest =>
    let mq := ocrData pg
    if mq.1 then
      let st2 := applyParsed st pg mq.2
      if st2.pctls.full then st2 else fillOcr ocrData st2 rest
    else fillOcr ocrData st rest

/-- The fill state reached after the text-pattern stage (step 3) and the
table stage (step 4, attempted only when step 3 left slots unfilled). -/
def textTableState (sections : List (Nat × Parsed))
    (tables : List (Nat × Bool × Parsed)) : FillState :=
  let st0 : FillState := { pctls := { p25 := none, p50 := none, p75 := none }
                           page := none }
  let st1 := fillSections st0 sections
  if st1.pctls.full then st1 else fillTables st1 tables

/-- `src/src/extract_pdf.py`, `extract_from_pdf`, with the per-stage
parse outcomes supplied as data: `sections` are the candidate sections
found by `find_longer_run_section` with their parsed values, `tables`
the extracted tables with their concept-match flag and parsed values,
`ocrData` the OCR outcome per page, and `npages` the page count.  The
`source` tag starts as `"pdf_text"` and is overwritten to `"pdf_ocr"`
as soon as the OCR stage is entered (lines 355-358), regardless of
whether OCR contributes any value. -/
def extract_from_pdf (npages : Nat) (sections : List (Nat × Parsed))
    (tables : List (Nat × Bool × Parsed)) (ocrData : Nat → Bool × Parsed)
    (use_ocr ocr_available : Bool) (survey_date : PyDate)
    (survey_type file_url filepath : String) : List ExtractedPercentile :=
  let st2 := textTableState sections tables
  let ocrEntered := use_ocr && ocr_available && !st2.pctls.full
  let source := if ocrEntered then "pdf_ocr" else "pdf_text"
  let st3 :=
    if ocrEntered then
      let ocrPages0 := ((sections.map (fun s => s.1)).dedup).insertionSort
        (fun a b => a ≤ b)
      let ocrPages := if ocrPages0 = [] then
          (List.range (min 5 npages)).map (fun i => i + 1)
        else ocrPages0
      let st3a := fillOcr ocrData st2 ocrPages
      if st3a.pctls.full then st3a
      else
        let remaining := (((List.range npages).map (fun i => i + 1)).filter
          (fun p => !(ocrPages.contains p))).take 10
        fillOcr ocrData st3a remaining
    else st2
  let panel := if survey_type = "SPD" then "SPD"
    else if survey_type = "SMP" then "SMP"
    else "Combined"
  let notes :=
    if st3.pctls.p25 = none ∧ st3.pctls.p50 = none ∧ st3.pctls.p75 = none then
      some (if sections = [] then "question_not_present; no_matching_sections_found"
        else "question_not_present")
    else none
  [{ survey_date := survey_date
     panel := panel
     concept := "ff_longer_run_target"
     pctl25 := st3.pctls.p25
     pctl50 := st3.pctls.p50
     pctl75 := st3.pctls.p75
     source := source
     file_url := file_url
     local_path := filepath
     pdf_page := st3.page
     notes := notes }]

/-- A concrete spreadsheet record for the July 2017 SPD survey. -/
def recXlsx : ExtractedPercentile :=
  { survey_date := ⟨2017, 7, 1⟩
    panel := "SPD"
    concept := "ff_longer_run_target"
    pctl25 := some 3
    pctl50 := some (mkRat 313 100)
    pctl75 := some (mkRat 13 4)
    source := "xlsx"
    file_url := "http://nyfed/spd-2017-july-data.xlsx"
    local_path := "data/spd-2017-july-data.xlsx"
    pdf_page := none
    notes := none }

/-- A competing text-pattern record for the same (date, panel) key. -/
def recPdfText : ExtractedPercentile :=
  { survey_date := ⟨2017, 7, 1⟩
    panel := "SPD"
    concept := "ff_longer_run_target"
    pctl25 := some (mkRat 11 4)
    pctl50 := some 3
    pctl75 := some (mkRat 13 4)
    source := "pdf_text"
    file_url := "http://nyfed/spd-2017-july-results.pdf"
    local_path := "data/spd-2017-july-results.pdf"
    pdf_page := some 4
    notes := none }

/-- A per-sheet record whose panel classified as `Combined`. -/
def recCombinedIn : ExtractedPercentile :=
  { survey_date := ⟨2015, 4, 1⟩
    panel := "Combined"
    concept := "ff_longer_run_target"
    pctl25 := some (mkRat 7 2)
    pctl50 := some (mkRat 15 4)
    pctl75 := some 4
    source := "xlsx"
    file_url := "http://nyfed/spd-2015-april-data.xlsx"
    local_path := "data/spd-2015-april-data.xlsx"
    pdf_page := none
    notes := none }

/-- The vision-service response of the spec's end-to-end scenario:
`found`, 2.5 / 2.75 in bound, 11.5 out of bound. -/
def exVision : LlmResult :=
  { survey_month := some "July"
    survey_year := some 2017
    found := true
    pctl25 := some (mkRat 5 2)
    pctl50 := some (mkRat 11 4)
    pctl75 := some (mkRat 23 2)
    page := some 4
    reason := none
    error := none }

/-- A fixed stand-in for `datetime.now()` in `parse_survey_date`. -/
def exNow : PyDate := ⟨2025, 1, 1⟩

/-- An OpenAI response whose 25th percentile is a legitimate zero rate. -/
def exOpenAiZero : OpenAiData :=
  { found := some true
    pctl25 := some 0
    pctl50 := some (mkRat 313 100)
    pctl75 := none
    page := some 3
    notes := none }

/-- A candidate text section (page 2) that fills only two slots. -/
def exSections : List (Nat × Parsed) :=
  [(2, { p25 := some (mkRat 5 2), p50 := some (mkRat 11 4), p75 := none })]

/-- OCR outcomes where no page matches the concept: OCR contributes
nothing. -/
def exOcrNone : Nat → Bool × Parsed :=
  fun _pg => (false, { p25 := none, p50 := none, p75 := none })

/-- No record surviving `drop_duplicates` carries a key already seen. -/
theorem dedupByKeyAux_not_seen (l : List ExtractedPercentile) :
    ∀ seen, ∀ r ∈ dedupByKeyAux seen l, (r.survey_date, r.panel) ∉ seen := by
  induction l with
  | nil => intro seen r hr; simp [dedupByKeyAux] at hr
  | cons a as ih =>
    intro seen r hr
    by_cases h : (a.survey_date, a.panel) ∈ seen
    · rw [dedupByKeyAux, if_pos h] at hr
      exact ih seen r hr
    · rw [dedupByKeyAux, if_neg h] at hr
      rcases List.mem_cons.mp hr with rfl | hr2
      · exact h
      · have h2 := ih ((a.survey_date, a.panel) :: seen) r hr2
        exact fun hs => h2 (List.mem_cons_of_mem _ hs)

/-- `drop_duplicates` leaves at most one record per (date, panel) key. -/
theorem dedupByKeyAux_pairwise (l : List ExtractedPercentile) :
    ∀ seen, (dedupByKeyAux seen l).Pairwise
      (fun a b => (a.survey_date, a.panel) ≠ (b.survey_date, b.panel)) := by
  induction l with
  | nil => intro seen; simp [dedupByKeyAux]
  | cons a as ih =>
    intro seen
    by_cases h : (a.survey_date, a.panel) ∈ seen
    · rw [dedupByKeyAux, if_pos h]
      exact ih seen
    · rw [dedupByKeyAux, if_neg h]
      refine List.Pairwise.cons ?_ (ih _)
      intro b hb he
      have h2 := dedupByKeyAux_not_seen as ((a.survey_date, a.panel) :: seen) b hb
      exact h2 (he ▸ List.mem_cons_self _ _)

/-- Every record surviving `drop_duplicates` was in the input. -/
theorem dedupByKeyAux_subset (l : List ExtractedPercentile) :
    ∀ seen, ∀ r ∈ dedupByKeyAux seen l, r ∈ l := by
  induction l with
  | nil => intro seen r hr; simp [dedupByKeyAux] at hr
  | cons a as ih =>
    intro seen r hr
    by_cases h : (a.survey_date, a.panel) ∈ seen
    · rw [dedupByKeyAux, if_pos h] at hr
      exact List.mem_cons_of_mem _ (ih seen r hr)
    · rw [dedupByKeyAux, if_neg h] at hr
      rcases List.mem_cons.mp hr with rfl | hr2
      · exact List.mem_cons_self _ _
      · exact List.mem_cons_of_mem _ (ih _ r hr2)

/-- Strict date comparison is irreflexive. -/
theorem dateLt_irrefl (d : PyDate) : dateLt d d = false := by
  simp only [dateLt, decide_eq_false_iff_not]
  omega

/-- Strict date comparison is transitive. -/
theorem dateLt_trans {a b c : PyDate} (h1 : dateLt a b = true)
    (h2 : dateLt b c = true) : dateLt a c = true := by
  simp only [dateLt, decide_eq_true_eq] at h1 h2 ⊢
  omega

/-- Date trichotomy: the lexicographic comparison is a strict total
order. -/
theorem dateLt_trichotomy (a b : PyDate) :
    dateLt a b = true ∨ a = b ∨ dateLt b a = true := by
  cases a with
  | mk y1 m1 d1 =>
    cases b with
    | mk y2 m2 d2 =>
      simp only [dateLt, decide_eq_true_eq, PyDate.mk.injEq]
      omega

/-- Character-list `<` is irreflexive. -/
theorem strLtChars_irrefl : ∀ l : List Char, strLtChars l l = false
  | [] => rfl
  | a :: as => by
    rw [strLtChars, if_neg (lt_irrefl a), if_neg (lt_irrefl a)]
    exact strLtChars_irrefl as

/-- Character-list `<` is transitive. -/
theorem strLtChars_trans (a : List Char) : ∀ b c : List Char,
    strLtChars a b = true → strLtChars b c = true → strLtChars a c = true := by
  induction a with
  | nil =>
    intro b c h1 h2
    cases b with
    | nil => simp [strLtChars] at h1
    | cons x xs =>
      cases c with
      | nil => simp [strLtChars] at h2
      | cons y ys => rfl
  | cons p ps ih =>
    intro b c h1 h2
    cases b with
    | nil => simp [strLtChars] at h1
    | cons x xs =>
      cases c with
      | nil => simp [strLtChars] at h2
      | cons y ys =>
        rw [strLtChars] at h1 h2 ⊢
        by_cases hpx : p < x
        · rw [if_pos hpx] at h1
          by_cases hxy : x < y
          · rw [if_pos (lt_trans hpx hxy)]
          · rw [if_neg hxy] at h2
            by_cases hyx : y < x
            · rw [if_pos hyx] at h2
              exact absurd h2 (by simp)
            · have hxy2 : x = y := le_antisymm (le_of_not_lt hyx) (le_of_not_lt hxy)
              rw [if_pos (hxy2 ▸ hpx)]
        · rw [if_neg hpx] at h1
          by_cases hxp : x < p
          · rw [if_pos hxp] at h1
            exact absurd h1 (by simp)
          · rw [if_neg hxp] at h1
            have hpx2 : p = x := le_antisymm (le_of_not_lt hxp) (le_of_not_lt hpx)
            by_cases hxy : x < y
            · rw [if_pos (hpx2 ▸ hxy)]
            · rw [if_neg hxy] at h2
              by_cases hyx : y < x
              · rw [if_pos hyx] at h2
                exact absurd h2 (by simp)
              · rw [if_neg hyx] at h2
                have hxy2 : x = y := le_antisymm (le_of_not_lt hyx) (le_of_not_lt hxy)
                have hpy2 : p = y := hpx2.trans hxy2
                have hpy : ¬ p < y := by rw [hpy2]; exact lt_irrefl y
                have hyp : ¬ y < p := by rw [hpy2]; exact lt_irrefl y
                rw [if_neg hpy, if_neg hyp]
                exact ih xs ys h1 h2

/-- Character-list trichotomy. -/
theorem strLtChars_trichotomy (a : List Char) : ∀ b : List Char,
    strLtChars a b = true ∨ a = b ∨ strLtChars b a = true := by
  induction a with
  | nil =>
    intro b
    cases b with
    | nil => exact Or.inr (Or.inl rfl)
    | cons y ys => exact Or.inl rfl
  | cons p ps ih =>
    intro b
    cases b with
    | nil => exact Or.inr (Or.inr rfl)
    | cons y ys =>
      by_cases hpy : p < y
      · exact Or.inl (by rw [strLtChars, if_pos hpy])
      · by_cases hyp : y < p
        · exact Or.inr (Or.inr (by rw [strLtChars, if_pos hyp]))
        · have he : p = y := le_antisymm (le_of_not_lt hyp) (le_of_not_lt hpy)
          subst he
          rcases ih ys with h | h | h
          · refine Or.inl ?_
            rw [strLtChars, if_neg (lt_irrefl p), if_neg (lt_irrefl p)]
            exact h
          · exact Or.inr (Or.inl (by rw [h]))
          · refine Or.inr (Or.inr ?_)
            rw [strLtChars, if_neg (lt_irrefl p), if_neg (lt_irrefl p)]
            exact h

/-- Python string `<` is irreflexive. -/
theorem strLtB_irrefl (s : String) : strLtB s s = false :=
  strLtChars_irrefl s.toList

/-- Python string `<` is transitive. -/
theorem strLtB_trans {a b c : String} (h1 : strLtB a b = true)
    (h2 : strLtB b c = true) : strLtB a c = true :=
  strLtChars_trans a.toList b.toList c.toList h1 h2

/-- Python string trichotomy. -/
theorem strLtB_trichotomy (a b : String) :
    strLtB a b = true ∨ a = b ∨ strLtB b a = true := by
  rcases strLtChars_trichotomy a.toList b.toList with h | h | h
  · exact Or.inl h
  · exact Or.inr (Or.inl (String.ext h))
  · exact Or.inr (Or.inr h)

/-- The sort key of the reconciliation, in propositional form. -/
theorem reconLe_iff (a b : ExtractedPercentile) :
    reconLe a b = true ↔
      dateLt a.survey_date b.survey_date = true ∨
        (a.survey_date = b.survey_date ∧
          (strLtB a.panel b.panel = true ∨
            (a.panel = b.panel ∧
              sourcePriority a.source ≤ sourcePriority b.source))) := by
  simp [reconLe, Bool.or_eq_true, Bool.and_eq_true, decide_eq_true_eq]

/-- The reconciliation sort key is total. -/
theorem reconLe_total (a b : ExtractedPercentile) :
    reconLe a b = true ∨ reconLe b a = true := by
  rcases dateLt_trichotomy a.survey_date b.survey_date with h | h | h
  · exact Or.inl ((reconLe_iff a b).mpr (Or.inl h))
  · rcases strLtB_trichotomy a.panel b.panel with hp | hp | hp
    · exact Or.inl ((reconLe_iff a b).mpr (Or.inr ⟨h, Or.inl hp⟩))
    · rcases le_total (sourcePriority a.source) (sourcePriority b.source) with
        hq | hq
      · exact Or.inl ((reconLe_iff a b).mpr (Or.inr ⟨h, Or.inr ⟨hp, hq⟩⟩))
      · exact Or.inr ((reconLe_iff b a).mpr (Or.inr ⟨h.symm, Or.inr ⟨hp.symm, hq⟩⟩))
    · exact Or.inr ((reconLe_iff b a).mpr (Or.inr ⟨h.symm, Or.inl hp⟩))
  · exact Or.inr ((reconLe_iff b a).mpr (Or.inl h))

/-- The reconciliation sort key is transitive. -/
theorem reconLe_trans {a b c : ExtractedPercentile}
    (h1 : reconLe a b = true) (h2 : reconLe b c = true) :
    reconLe a c = true := by
  rw [reconLe_iff] at h1 h2 ⊢
  rcases h1 with h1 | ⟨hd1, h1⟩
  · rcases h2 with h2 | ⟨hd2, _⟩
    · exact Or.inl (dateLt_trans h1 h2)
    · exact Or.inl (hd2 ▸ h1)
  · rcases h2 with h2 | ⟨hd2, h2⟩
    · exact Or.inl (hd1.symm ▸ h2)
    · refine Or.inr ⟨hd1.trans hd2, ?_⟩
      rcases h1 with h1 | ⟨hp1, hq1⟩
      · rcases h2 with h2 | ⟨hp2, _⟩
        · exact Or.inl (strLtB_trans h1 h2)
        · exact Or.inl (hp2 ▸ h1)
      · rcases h2 with h2 | ⟨hp2, hq2⟩
        · exact Or.inl (hp1.symm ▸ h2)
        · exact Or.inr ⟨hp1.trans hp2, hq1.trans hq2⟩

/-- Between two records with one (date, panel) key, the sort key orders
by source priority. -/
theorem reconLe_same_key {a b : ExtractedPercentile}
    (hd : a.survey_date = b.survey_date) (hp : a.panel = b.panel)
    (h : reconLe a b = true) :
    sourcePriority a.source ≤ sourcePriority b.source := by
  rw [reconLe_iff] at h
  rcases h with h | ⟨_, h | ⟨_, hle⟩⟩
  · rw [hd] at h
    exact absurd h (by simp [dateLt_irrefl])
  · rw [hp] at h
    exact absurd h (by simp [strLtB_irrefl])
  · exact hle

/-- The first sorting pass of the reconciliation orders every pair of
rows by the (date, panel, priority) key. -/
theorem insertionSort_reconLe_pairwise (rs : List ExtractedPercentile) :
    (rs.insertionSort (fun a b => reconLe a b = true)).Pairwise
      (fun a b => reconLe a b = true) := by
  haveI : IsTotal ExtractedPercentile (fun a b => reconLe a b = true) :=
    ⟨reconLe_total⟩
  haveI : IsTrans ExtractedPercentile (fun a b => reconLe a b = true) :=
    ⟨fun _ _ _ => reconLe_trans⟩
  exact List.sorted_insertionSort _ rs

/-- In a key-sorted list, the record kept by `drop_duplicates` for a key
is ordered (by the sort key) before every other record with that key. -/
theorem dedupByKeyAux_min (l : List ExtractedPercentile) :
    ∀ seen, l.Pairwise (fun a b => reconLe a b = true) →
      ∀ r ∈ dedupByKeyAux seen l, ∀ r2 ∈ l,
        (r2.survey_date, r2.panel) = (r.survey_date, r.panel) →
        r = r2 ∨ reconLe r r2 = true := by
  induction l with
  | nil => intro seen _ r hr; simp [dedupByKeyAux] at hr
  | cons a as ih =>
    intro seen hp r hr r2 hr2 hkey
    rw [List.pairwise_cons] at hp
    obtain ⟨hhead, htail⟩ := hp
    by_cases h : (a.survey_date, a.panel) ∈ seen
    · rw [dedupByKeyAux, if_pos h] at hr
      rcases List.mem_cons.mp hr2 with rfl | hr2b
      · have hns := dedupByKeyAux_not_seen as seen r hr
        exact absurd (hkey ▸ h) hns
      · exact ih seen htail r hr r2 hr2b hkey
    · rw [dedupByKeyAux, if_neg h] at hr
      rcases List.mem_cons.mp hr with rfl | hrb
      · rcases List.mem_cons.mp hr2 with rfl | hr2b
        · exact Or.inl rfl
        · exact Or.inr (hhead r2 hr2b)
      · rcases List.mem_cons.mp hr2 with he | hr2b
        · exfalso
          refine dedupByKeyAux_not_seen as _ r hrb ?_
          rw [← hkey, he]
          exact List.mem_cons_self _ _
        · exact ih _ htail r hrb r2 hr2b hkey

/-- Every record of the reconciliation output comes from the input. -/
theorem reconcile_subset (rs : List ExtractedPercentile) :
    ∀ r ∈ reconcile rs, r ∈ rs := by
  intro r hr
  simp only [reconcile] at hr
  have h1 : r ∈ dedupByKeyAux []
      (rs.insertionSort (fun a b => reconLe a b = true)) :=
    (List.perm_insertionSort _ _).mem_iff.mp hr
  have h2 := dedupByKeyAux_subset _ [] r h1
  exact (List.perm_insertionSort _ _).mem_iff.mp h2

/-- The surviving record of every (date, panel) group has the most
trusted source of the group: its priority is minimal among all input
records with that key. -/
theorem reconcile_min_priority (rs : List ExtractedPercentile) :
    ∀ r ∈ reconcile rs, ∀ r2 ∈ rs,
      (r2.survey_date, r2.panel) = (r.survey_date, r.panel) →
      sourcePriority r.source ≤ sourcePriority r2.source := by
  intro r hr r2 hr2 hkey
  simp only [reconcile] at hr
  have hrd : r ∈ dedupByKeyAux []
      (rs.insertionSort (fun a b => reconLe a b = true)) :=
    (List.perm_insertionSort _ _).mem_iff.mp hr
  have hr2s : r2 ∈ rs.insertionSort (fun a b => reconLe a b = true) :=
    (List.perm_insertionSort _ _).mem_iff.mpr hr2
  rcases dedupByKeyAux_min _ [] (insertionSort_reconLe_pairwise rs)
      r hrd r2 hr2s hkey with rfl | hle
  · exact le_refl _
  · have hd : r.survey_date = r2.survey_date := (congrArg Prod.fst hkey).symm
    have hpan : r.panel = r2.panel := (congrArg Prod.snd hkey).symm
    exact reconLe_same_key hd hpan hle

/-- The reconciliation output never has two records with one
(date, panel) key. -/
theorem reconcile_pairwise (rs : List ExtractedPercentile) :
    (reconcile rs).Pairwise
      (fun a b => (a.survey_date, a.panel) ≠ (b.survey_date, b.panel)) := by
  unfold reconcile
  have hperm := List.perm_insertionSort
    (fun a b : ExtractedPercentile => dateLe a.survey_date b.survey_date = true)
    (dedupByKeyAux [] ((rs.insertionSort (fun a b => reconLe a b = true))))
  have hsym : ∀ {x y : ExtractedPercentile},
      (x.survey_date, x.panel) ≠ (y.survey_date, y.panel) →
      (y.survey_date, y.panel) ≠ (x.survey_date, x.panel) :=
    fun h he => h he.symm
  exact (hperm.pairwise_iff hsym).mpr (dedupByKeyAux_pairwise _ [])

/-- C1: for every input list, reconciliation keeps at most one record
per (survey_date, panel) pair, every surviving record comes from the
input, and the survivor of each group carries the most trusted source:
its priority is minimal among all input records with the same key.  The
priority map trusts xlsx over the vision tags (`pdf_llm`, `pdf_openai`),
those over `pdf_text`, that over `pdf_ocr`, and gives any unknown source
tag the lowest trust; for two records with one key and sources
`pdf_text` and `xlsx`, only the xlsx record survives. -/
theorem C1_reconcile_priority :
    (∀ rs : List ExtractedPercentile, (reconcile rs).Pairwise
      (fun a b => (a.survey_date, a.panel) ≠ (b.survey_date, b.panel))) ∧
    (∀ rs : List ExtractedPercentile, ∀ r ∈ reconcile rs, r ∈ rs) ∧
    (∀ rs : List ExtractedPercentile, ∀ r ∈ reconcile rs, ∀ r2 ∈ rs,
      (r2.survey_date, r2.panel) = (r.survey_date, r.panel) →
      sourcePriority r.source ≤ sourcePriority r2.source) ∧
    sourcePriority "xlsx" < sourcePriority "pdf_llm" ∧
    sourcePriority "xlsx" < sourcePriority "pdf_openai" ∧
    sourcePriority "pdf_llm" < sourcePriority "pdf_text" ∧
    sourcePriority "pdf_openai" < sourcePriority "pdf_text" ∧
    sourcePriority "pdf_text" < sourcePriority "pdf_ocr" ∧
    (∀ s : String,
      s ∉ (["xlsx", "pdf_llm", "pdf_text", "pdf_ocr", "pdf_openai"] : List String) →
      sourcePriority "pdf_ocr" < sourcePriority s) ∧
    reconcile [recPdfText, recXlsx] = [recXlsx] := by
  refine ⟨reconcile_pairwise, reconcile_subset, reconcile_min_priority,
    by decide, by decide, by decide, by decide, by decide, ?_, by decide⟩
  intro s hs
  simp only [List.mem_cons, List.not_mem_nil, or_false, not_or] at hs
  obtain ⟨h1, h2, h3, h4, h5⟩ := hs
  simp [sourcePriority, h1, h2, h3, h4, h5]

/-- C1, witness: the theorem applied to the two-record scenario — the
survivor is in the input, its priority is minimal over the competing
pdf_text record — and to a source tag outside the priority map. -/
theorem C1_reconcile_priority_witness :
    (reconcile [recPdfText, recXlsx]).Pairwise
      (fun a b => (a.survey_date, a.panel) ≠ (b.survey_date, b.panel)) ∧
    recXlsx ∈ ([recPdfText, recXlsx] : List ExtractedPercentile) ∧
    sourcePriority recXlsx.source ≤ sourcePriority recPdfText.source ∧
    (("sep_dotplot" : String) ∉
        (["xlsx", "pdf_llm", "pdf_text", "pdf_ocr", "pdf_openai"] : List String) ∧
      sourcePriority "pdf_ocr" < sourcePriority "sep_dotplot") :=
  ⟨C1_reconcile_priority.1 _,
    C1_reconcile_priority.2.1 [recPdfText, recXlsx] recXlsx (by decide),
    C1_reconcile_priority.2.2.1 [recPdfText, recXlsx] recXlsx (by decide)
      recPdfText (by decide) (by decide),
    by decide,
    C1_reconcile_priority.2.2.2.2.2.2.2.2.1 "sep_dotplot" (by decide)⟩

/-- C2: for numeric inputs of magnitude in [0.5, 10] the normalizer only
rounds to 4 decimals (no rescale), and for magnitude below 0.5 it
multiplies by 100 before rounding. -/
theorem C2_normalize_percent_rescale (v : ℚ) :
    (1 / 2 ≤ |v| → |v| ≤ 10 → normalize_percent (some v) = some (pyRound4 v)) ∧
    (|v| < 1 / 2 → normalize_percent (some v) = some (pyRound4 (v * 100))) := by
  constructor
  · intro h1 _
    rw [normalize_percent, if_neg (not_lt.mpr h1)]
  · intro h
    rw [normalize_percent, if_pos h]

/-- C2, witness: the theorem applied at v = 3 (identity branch) and at
v = 0.03 (rescale branch). -/
theorem C2_normalize_percent_rescale_witness :
    (1 / 2 ≤ |(3 : ℚ)| ∧ |(3 : ℚ)| ≤ 10 ∧
      normalize_percent (some 3) = some (pyRound4 3)) ∧
    (|(3 / 100 : ℚ)| < 1 / 2 ∧
      normalize_percent (some (3 / 100)) = some (pyRound4 (3 / 100 * 100))) :=
  have habs : |(3 / 100 : ℚ)| < 1 / 2 := by
    rw [abs_of_pos (by norm_num : (0 : ℚ) < 3 / 100)]
    norm_num
  ⟨⟨by norm_num, by norm_num,
      (C2_normalize_percent_rescale 3).1 (by norm_num) (by norm_num)⟩,
    ⟨habs, (C2_normalize_percent_rescale (3 / 100)).2 habs⟩⟩

/-- A date not before 2016-11-01 is also not before 2014-01-01. -/
theorem dateLt_cutoff_mono (d : PyDate) (h : dateLt d ⟨2016, 11, 1⟩ = false) :
    dateLt d ⟨2014, 1, 1⟩ = false := by
  simp only [dateLt, decide_eq_false_iff_not] at h ⊢
  omega

/-- C3, counterexample: `determine_panel` has no combined/total marker
branch, so the label "Total" with a pre-2014 date classifies as SPD via
the date-era fallback, not as Combined. -/
theorem C3_counterexample :
    determine_panel "Total" (some ⟨2013, 6, 1⟩) = "SPD" ∧
    determine_panel "Total" (some ⟨2013, 6, 1⟩) ≠ "Combined" := by decide

/-- C3, amended: explicit dealer markers classify as SPD and explicit
participant markers as SMP for every date, but "Total" classifies as
Combined only when no date is given or the date is on/after 2016-11-01;
for earlier dates the era fallback returns SPD. -/
theorem C3_determine_panel_amended :
    (∀ d : Option PyDate, determine_panel "Primary Dealers Survey" d = "SPD") ∧
    (∀ d : Option PyDate, determine_panel "Market Participants" d = "SMP") ∧
    determine_panel "Total" none = "Combined" ∧
    (∀ d : PyDate, dateLt d ⟨2016, 11, 1⟩ = false →
      determine_panel "Total" (some d) = "Combined") ∧
    (∀ d : PyDate, dateLt d ⟨2016, 11, 1⟩ = true →
      determine_panel "Total" (some d) = "SPD") := by
  have hred : ∀ d : PyDate, determine_panel "Total" (some d) =
      (if dateLt d ⟨2014, 1, 1⟩ then "SPD"
       else if dateLt d ⟨2016, 11, 1⟩ then "SPD" else "Combined") :=
    fun d => rfl
  refine ⟨fun d => rfl, fun d => rfl, rfl, ?_, ?_⟩
  · intro d h
    rw [hred, dateLt_cutoff_mono d h, h]
    rfl
  · intro d h
    rw [hred]
    by_cases h14 : dateLt d ⟨2014, 1, 1⟩ = true
    · rw [h14]; rfl
    · rw [Bool.not_eq_true] at h14
      rw [h14, h]
      rfl

/-- C3, witness: the amended theorem applied at concrete labels and
dates on both sides of the era cutoff. -/
theorem C3_determine_panel_amended_witness :
    determine_panel "Primary Dealers Survey" (some ⟨2012, 3, 1⟩) = "SPD" ∧
    determine_panel "Market Participants" (some ⟨2012, 3, 1⟩) = "SMP" ∧
    (dateLt ⟨2017, 1, 1⟩ ⟨2016, 11, 1⟩ = false ∧
      determine_panel "Total" (some ⟨2017, 1, 1⟩) = "Combined") ∧
    (dateLt ⟨2015, 6, 1⟩ ⟨2016, 11, 1⟩ = true ∧
      determine_panel "Total" (some ⟨2015, 6, 1⟩) = "SPD") :=
  ⟨C3_determine_panel_amended.1 _, C3_determine_panel_amended.2.1 _,
    ⟨by decide, C3_determine_panel_amended.2.2.2.1 _ (by decide)⟩,
    ⟨by decide, C3_determine_panel_amended.2.2.2.2 _ (by decide)⟩⟩

/-- C4, counterexample: when nothing is extracted, the single all-null
record carries `notes = "question_not_present"`, not the claimed
`"no data extracted"`. -/
theorem C4_counterexample :
    (extract_from_xlsx [] "merged" "data/file.xlsx" "http://nyfed/file.xlsx"
        ⟨2015, 4, 1⟩).map (fun r => r.notes) = [some "question_not_present"] ∧
    (some "question_not_present" : Option String) ≠ some "no data extracted" := by
  decide

/-- C4, amended: a spreadsheet from which no percentile record is
obtained yields exactly one record, with all three percentiles null and
provenance (file URL and local path) preserved, whose `notes` is the
failure tag `"question_not_present"` (other failure modes use
`"no_sheets_found"` or a `"parse_error: …"` tag), not the literal string
`"no data extracted"`. -/
theorem C4_empty_result_amended (survey_type filepath file_url : String)
    (survey_date : PyDate) :
    extract_from_xlsx [] survey_type filepath file_url survey_date =
      [createEmptyResult filepath file_url survey_date "question_not_present"] := by
  simp [extract_from_xlsx, xlsxOverride, dedupByKeyAux]

/-- Every record relabelled by the SPD/SMP hint has a non-Combined
panel. -/
theorem xlsxOverride_panel (survey_type : String)
    (hst : survey_type = "SPD" ∨ survey_type = "SMP")
    (rs : List ExtractedPercentile) :
    ∀ r ∈ xlsxOverride survey_type rs, r.panel ≠ "Combined" := by
  intro r hr
  unfold xlsxOverride at hr
  rw [if_pos hst] at hr
  obtain ⟨x, _, rfl⟩ := List.mem_map.mp hr
  by_cases hc : x.panel = "Combined"
  · rw [if_pos hc]
    show survey_type ≠ "Combined"
    rcases hst with rfl | rfl <;> decide
  · rw [if_neg hc]
    exact hc

/-- C5, counterexample: with an SPD hint but no extracted record, the
all-null fallback record still carries panel `Combined` — so the output
of `extract_from_xlsx` can contain a Combined panel even for a known
single-panel source. -/
theorem C5_counterexample :
    (extract_from_xlsx [] "SPD" "data/spd.xlsx" "http://nyfed/spd.xlsx"
        ⟨2015, 4, 1⟩).map (fun r => r.panel) = ["Combined"] ∧
    (∃ r ∈ extract_from_xlsx [] "SPD" "data/spd.xlsx" "http://nyfed/spd.xlsx"
        ⟨2015, 4, 1⟩, r.panel = "Combined") := by
  decide

/-- C5, amended: when the hint is SPD or SMP and at least one record was
extracted, no returned record carries panel Combined (each Combined
panel is overridden to the hint); the exception is the all-null fallback
record emitted when nothing was extracted, which keeps panel Combined. -/
theorem C5_override_amended (all_results : List ExtractedPercentile)
    (survey_type filepath file_url : String) (survey_date : PyDate)
    (hst : survey_type = "SPD" ∨ survey_type = "SMP")
    (hne : all_results ≠ []) :
    ∀ r ∈ extract_from_xlsx all_results survey_type filepath file_url survey_date,
      r.panel ≠ "Combined" := by
  intro r hr
  have hone : xlsxOverride survey_type all_results ≠ [] := by
    unfold xlsxOverride
    cases all_results with
    | nil => exact absurd rfl hne
    | cons a as => rcases hst with rfl | rfl <;> simp
  have hded : dedupByKeyAux [] (xlsxOverride survey_type all_results) ≠ [] := by
    cases hc : xlsxOverride survey_type all_results with
    | nil => exact absurd hc hone
    | cons a as => simp [dedupByKeyAux]
  simp only [extract_from_xlsx] at hr
  rw [if_neg hded] at hr
  exact xlsxOverride_panel survey_type hst all_results r
    (dedupByKeyAux_subset _ [] r hr)

/-- C5, witness: the amended theorem applied to a one-record input whose
panel classified as Combined, with the SPD hint. -/
theorem C5_override_amended_witness :
    (("SPD" : String) = "SPD" ∨ ("SPD" : String) = "SMP") ∧
    ([recCombinedIn] : List ExtractedPercentile) ≠ [] ∧
    ∀ r ∈ extract_from_xlsx [recCombinedIn] "SPD" "data/spd-2015-april-data.xlsx"
        "http://nyfed/spd-2015-april-data.xlsx" ⟨2015, 4, 1⟩,
      r.panel ≠ "Combined" :=
  ⟨Or.inl rfl, by simp,
    C5_override_amended [recCombinedIn] "SPD" "data/spd-2015-april-data.xlsx"
      "http://nyfed/spd-2015-april-data.xlsx" ⟨2015, 4, 1⟩ (Or.inl rfl) (by simp)⟩

/-- Any value surviving the sanity check was returned by the service and
lies in the 0-10 bound. -/
theorem sanitizeRate_eq_some (v : Option ℚ) (q : ℚ)
    (h : sanitizeRate v = some q) : v = some q ∧ 0 ≤ q ∧ q ≤ 10 := by
  match v with
  | none => simp [sanitizeRate] at h
  | some x =>
    rw [sanitizeRate] at h
    by_cases hb : x < 0 ∨ x > 10
    · rw [if_pos hb] at h
      exact absurd h (by simp)
    · rw [if_neg hb] at h
      push_neg at hb
      obtain rfl := Option.some.inj h
      exact ⟨rfl, hb.1, hb.2⟩

/-- In-bound values pass the sanity check unchanged. -/
theorem sanitizeRate_keeps (q : ℚ) (h0 : 0 ≤ q) (h10 : q ≤ 10) :
    sanitizeRate (some q) = some q := by
  rw [sanitizeRate, if_neg]
  push_neg
  exact ⟨h0, h10⟩

/-- C6: when the survey month is not already covered by the spreadsheet
extracts, `process_pdf` returns one record in which each percentile slot
holds a value iff the service returned that value and it lies within the
0-10 percent sanity bound; out-of-bound values are dropped to `None`
independently of the other slots. -/
theorem C6_process_pdf_sanity (filename : String) (result : LlmResult)
    (xlsx_dates : List String) (now : PyDate)
    (h : dateKey (parse_survey_date result filename now) ∉ xlsx_dates) :
    ∃ rec, process_pdf filename result xlsx_dates now = some rec ∧
      (∀ q : ℚ, rec.pctl25 = some q → result.pctl25 = some q ∧ 0 ≤ q ∧ q ≤ 10) ∧
      (∀ q : ℚ, result.pctl25 = some q → 0 ≤ q → q ≤ 10 → rec.pctl25 = some q) ∧
      (∀ q : ℚ, rec.pctl50 = some q → result.pctl50 = some q ∧ 0 ≤ q ∧ q ≤ 10) ∧
      (∀ q : ℚ, result.pctl50 = some q → 0 ≤ q → q ≤ 10 → rec.pctl50 = some q) ∧
      (∀ q : ℚ, rec.pctl75 = some q → result.pctl75 = some q ∧ 0 ≤ q ∧ q ≤ 10) ∧
      (∀ q : ℚ, result.pctl75 = some q → 0 ≤ q → q ≤ 10 → rec.pctl75 = some q) := by
  simp only [process_pdf, process_pdf_traced]
  rw [if_neg h]
  refine ⟨_, rfl, ?_, ?_, ?_, ?_, ?_, ?_⟩
  · exact fun q hq => sanitizeRate_eq_some _ q hq
  · intro q hq h0 h10
    show sanitizeRate result.pctl25 = some q
    rw [hq]
    exact sanitizeRate_keeps q h0 h10
  · exact fun q hq => sanitizeRate_eq_some _ q hq
  · intro q hq h0 h10
    show sanitizeRate result.pctl50 = some q
    rw [hq]
    exact sanitizeRate_keeps q h0 h10
  · exact fun q hq => sanitizeRate_eq_some _ q hq
  · intro q hq h0 h10
    show sanitizeRate result.pctl75 = some q
    rw [hq]
    exact sanitizeRate_keeps q h0 h10

/-- C6, witness: the spec's end-to-end scenario — response values 2.5 and
2.75 are retained, the out-of-bound 11.5 becomes `None`. -/
theorem C6_process_pdf_sanity_witness :
    dateKey (parse_survey_date exVision "2017-july-spd.pdf" exNow) ∉
      ([] : List String) ∧
    ∃ rec, process_pdf "2017-july-spd.pdf" exVision [] exNow = some rec ∧
      rec.pctl25 = some (mkRat 5 2) ∧ rec.pctl50 = some (mkRat 11 4) ∧
      rec.pctl75 = none := by
  refine ⟨by decide, ?_⟩
  obtain ⟨rec, hrec, h25a, h25b, h50a, h50b, h75a, h75b⟩ :=
    C6_process_pdf_sanity "2017-july-spd.pdf" exVision [] exNow (by decide)
  refine ⟨rec, hrec, ?_, ?_, ?_⟩
  · exact h25b (mkRat 5 2) rfl (by decide) (by decide)
  · exact h50b (mkRat 11 4) rfl (by decide) (by decide)
  · cases hv : rec.pctl75 with
    | none => rfl
    | some q =>
      obtain ⟨hq, _, hle⟩ := h75a q hv
      have hq2 : (mkRat 23 2 : ℚ) = q :=
        Option.some.inj (show some (mkRat 23 2) = some q from hq)
      rw [← hq2] at hle
      exact absurd hle (by decide)

/-- C7, counterexample: a PDF whose month key is already in the
spreadsheet-extract set produces no record, but the inference-service
call count is 1, not 0 — the call happens before the skip check (the
survey date is parsed from the service response). -/
theorem C7_counterexample :
    dateKey (parse_survey_date exVision "2017-july-spd.pdf" exNow) ∈
      ["2017-07"] ∧
    process_pdf "2017-july-spd.pdf" exVision ["2017-07"] exNow = none ∧
    (process_pdf_traced "2017-july-spd.pdf" exVision ["2017-07"] exNow).2 = 1 ∧
    (process_pdf_traced "2017-july-spd.pdf" exVision ["2017-07"] exNow).2 ≠ 0 := by
  decide

/-- C7, amended: for a survey month already covered by the spreadsheet
extracts, `process_pdf` emits no record, but the single inference-service
call of that invocation has already been performed. -/
theorem C7_skip_amended (filename : String) (result : LlmResult)
    (xlsx_dates : List String) (now : PyDate)
    (h : dateKey (parse_survey_date result filename now) ∈ xlsx_dates) :
    process_pdf_traced filename result xlsx_dates now = (none, 1) := by
  simp only [process_pdf_traced]
  rw [if_pos h]

/-- C7, witness: the amended theorem applied to the July 2017 document
with its month key in the spreadsheet set. -/
theorem C7_skip_amended_witness :
    dateKey (parse_survey_date exVision "2017-july-spd.pdf" exNow) ∈
      ["2017-07"] ∧
    process_pdf_traced "2017-july-spd.pdf" exVision ["2017-07"] exNow =
      (none, 1) :=
  ⟨by decide, C7_skip_amended "2017-july-spd.pdf" exVision ["2017-07"] exNow
    (by decide)⟩

/-- C8, counterexample: an all-zero (or empty) count input makes the
per-meeting pipeline skip the meeting (`if dots.empty: continue`), so the
output contains no summary row at all — in particular no row with n = 0
and null percentiles (the summary row type has no null percentiles). -/
theorem C8_counterexample :
    build_sep_meeting [("longer run", 3, 0), ("longer run", mkRat 7 2, 0)] = [] ∧
    build_sep_meeting ([] : List (String × ℚ × Nat)) = [] ∧
    ¬ ∃ row ∈ build_sep_meeting
      [("longer run", 3, 0), ("longer run", mkRat 7 2, 0)], row.n = 0 := by
  decide

/-- C8, amended: an empty or all-zero count input never reaches the
quantile computation — the meeting is skipped and contributes no summary
row (and, the embedding being total, no division or empty-sample
quantile error can occur). -/
theorem C8_empty_input_amended (raw : List (String × ℚ × Nat))
    (h : ∀ t ∈ raw, t.2.2 = 0) :
    build_sep_meeting raw = [] := by
  have hf : raw.filter (fun t => decide (0 < t.2.2)) = [] := by
    rw [List.filter_eq_nil_iff]
    intro a ha
    simp [h a ha]
  simp only [build_sep_meeting, clean_dotplot_counts, hf]
  simp [expand_to_dots]

/-- C8, witness: the amended theorem applied to a concrete all-zero
input. -/
theorem C8_empty_input_amended_witness :
    (∀ t ∈ [(("longer run" : String), (3 : ℚ), (0 : Nat))], t.2.2 = 0) ∧
    build_sep_meeting [(("longer run" : String), (3 : ℚ), (0 : Nat))] = [] :=
  ⟨by decide, C8_empty_input_amended _ (by decide)⟩

/-- C9: the truthiness guard in the OpenAI extractor maps both a missing
percentile and a returned value of exactly 0 to `None` in the output
record — a legitimate zero rate is indistinguishable from a missing
value. -/
theorem C9_openai_zero_discarded (survey_date : PyDate)
    (survey_type file_url filepath : String) (data : OpenAiData) :
    ∃ rec, extract_percentiles_with_openai survey_date survey_type data
        file_url filepath = [rec] ∧
      (data.pctl25 = some 0 → rec.pctl25 = none) ∧
      (data.pctl25 = none → rec.pctl25 = none) ∧
      (data.pctl50 = some 0 → rec.pctl50 = none) ∧
      (data.pctl50 = none → rec.pctl50 = none) ∧
      (data.pctl75 = some 0 → rec.pctl75 = none) ∧
      (data.pctl75 = none → rec.pctl75 = none) := by
  refine ⟨_, rfl, ?_, ?_, ?_, ?_, ?_, ?_⟩ <;> intro h <;>
    simp [pyTruthy, h]

/-- C9, witness: the theorem applied to a response carrying
`pctl25 = 0.0`. -/
theorem C9_openai_zero_discarded_witness :
    exOpenAiZero.pctl25 = some 0 ∧
    ∃ rec, extract_percentiles_with_openai ⟨2019, 3, 1⟩ "SPD" exOpenAiZero
        "http://nyfed/spd.pdf" "data/spd.pdf" = [rec] ∧ rec.pctl25 = none := by
  refine ⟨rfl, ?_⟩
  obtain ⟨rec, hrec, h1, _, _, _, _, _⟩ :=
    C9_openai_zero_discarded ⟨2019, 3, 1⟩ "SPD" "http://nyfed/spd.pdf"
      "data/spd.pdf" exOpenAiZero
  exact ⟨rec, hrec, h1 rfl⟩

/-- C10: whenever the OCR fallback stage is entered (OCR enabled and
available, and the text and table stages left some percentile slot
unfilled), the single returned record carries `source = "pdf_ocr"`, even
when OCR contributes no value. -/
theorem C10_ocr_source_tag (npages : Nat) (sections : List (Nat × Parsed))
    (tables : List (Nat × Bool × Parsed)) (ocrData : Nat → Bool × Parsed)
    (survey_date : PyDate) (survey_type file_url filepath : String)
    (h : (textTableState sections tables).pctls.full = false) :
    ∃ rec, extract_from_pdf npages sections tables ocrData true true
        survey_date survey_type file_url filepath = [rec] ∧
      rec.source = "pdf_ocr" := by
  refine ⟨_, rfl, ?_⟩
  show (if true && true && !(textTableState sections tables).pctls.full
    then "pdf_ocr" else "pdf_text") = "pdf_ocr"
  rw [h]
  rfl

/-- C10, witness: the text stage fills pctl25/pctl50 on page 2, OCR finds
nothing, yet the record is tagged `pdf_ocr` while its non-null values
came from the text stage. -/
theorem C10_ocr_source_tag_witness :
    ((textTableState exSections []).pctls.full = false ∧
      ∃ rec, extract_from_pdf 4 exSections [] exOcrNone true true ⟨2013, 4, 1⟩
          "merged" "http://nyfed/apr2013.pdf" "data/apr2013.pdf" = [rec] ∧
        rec.source = "pdf_ocr") ∧
    extract_from_pdf 4 exSections [] exOcrNone true true ⟨2013, 4, 1⟩
        "merged" "http://nyfed/apr2013.pdf" "data/apr2013.pdf" =
      [{ survey_date := ⟨2013, 4, 1⟩
         panel := "Combined"
         concept := "ff_longer_run_target"
         pctl25 := some (mkRat 5 2)
         pctl50 := some (mkRat 11 4)
         pctl75 := none
         source := "pdf_ocr"
         file_url := "http://nyfed/apr2013.pdf"
         local_path := "data/apr2013.pdf"
         pdf_page := some 2
         notes := none }] :=
  ⟨⟨by decide, C10_ocr_source_tag 4 exSections [] exOcrNone ⟨2013, 4, 1⟩
      "merged" "http://nyfed/apr2013.pdf" "data/apr2013.pdf" (by decide)⟩,
    by decide⟩

end NyFed
